import Mathlib

/-!
# transline_testovoe: customer and shipment services

A shallow embedding of the request-handling path of the two services
(`internal/customer/...` and `internal/shipment/...`) together with theorems
about that embedding.

Modelling conventions

* A Go `string` is a Lean `String` (the text it holds); the Go builtin `len`
  is the number of bytes of its UTF-8 encoding.
* A Go `error` is a `GoError`; a `nil` error is `none`.
* A function returning `(T, error)` returns `Except GoError T`.
* Stateful code threads a `World` (the two database tables and a log of the
  collaborator calls made so far); everything the code obtains from outside
  (database failures, generated uuids, the clock, the transport) is an
  explicit environment argument.
-/

set_option autoImplicit false

namespace Testovoe

/-! ## Go runtime: strings and errors -/

/-- Go builtin `len` on a string: the number of bytes. -/
def len (s : String) : Nat := s.utf8ByteSize

/-- Go error values, as far as this program builds and inspects them. -/
inductive GoError where
  /-- the sentinel `sql.ErrNoRows` -/
  | errNoRows
  /-- an error that only carries a text: `fmt.Errorf` without `%w`, `errors.New`,
  or a failure reported by a library (driver, transport) -/
  | msg (text : String)
  /-- the result of `fmt.Errorf(lead + "%w", inner)` -/
  | wrap (lead : String) (inner : GoError)
  /-- the result of `status.Errorf(code, ...)`, as built by the server and as seen by
  the gRPC client -/
  | status (code : Nat) (desc : String)
  deriving DecidableEq, Repr

/-- gRPC `codes.NotFound`. -/
def codes.NotFound : Nat := 5

/-- gRPC `codes.Internal`. -/
def codes.Internal : Nat := 13

/-- gRPC `codes.Unavailable`. -/
def codes.Unavailable : Nat := 14

/-- Text of a gRPC code, the method `codes.Code.String`: the name of each of the
seventeen standard codes, and `Code(n)` in decimal for any other number. -/
def codes.name (c : Nat) : String :=
  match c with
  | 0 => "OK"
  | 1 => "Canceled"
  | 2 => "Unknown"
  | 3 => "InvalidArgument"
  | 4 => "DeadlineExceeded"
  | 5 => "NotFound"
  | 6 => "AlreadyExists"
  | 7 => "PermissionDenied"
  | 8 => "ResourceExhausted"
  | 9 => "FailedPrecondition"
  | 10 => "Aborted"
  | 11 => "OutOfRange"
  | 12 => "Unimplemented"
  | 13 => "Internal"
  | 14 => "Unavailable"
  | 15 => "DataLoss"
  | 16 => "Unauthenticated"
  | n => "Code(" ++ toString n ++ ")"

deriving instance DecidableEq for Except

/-- The method `Error()` of a Go error. -/
def GoError.Error : GoError → String
  | .errNoRows => "sql: no rows in result set"
  | .msg t => t
  | .wrap lead inner => lead ++ inner.Error
  | .status c d => "rpc error: code = " ++ codes.name c ++ " desc = " ++ d

/-! ## Go `regexp`, the fragment used by `idnRegex` -/

/-- Syntax of the regular expressions that occur in the program. -/
inductive Re where
  /-- Pattern `^` (no multi-line flag): beginning of the text -/
  | beginText
  /-- Pattern `$` (no multi-line flag): end of the text -/
  | endText
  /-- Pattern `\d`: an ASCII decimal digit -/
  | perlDigit
  /-- Pattern for exactly `n` repetitions of `r` -/
  | rep (r : Re) (n : Nat)
  /-- Pattern `rs`: concatenation -/
  | cat (r s : Re)

/-- One matching state: the offset reached and the text that is left. -/
abbrev ReState := Nat × List Char

/-- Applies a matching step `n` times in a row. -/
def iterStep (f : ReState → Option ReState) : Nat → ReState → Option ReState
  | 0, st => some st
  | n + 1, st => (f st).bind (iterStep f n)

/-- Matches `r` at a given state; the fragment has no alternation and no unbounded
repetition, so there is at most one way to match. -/
def Re.run : Re → ReState → Option ReState
  | .beginText, st => if st.1 = 0 then some st else none
  | .endText, st => if st.2 = [] then some st else none
  | .perlDigit, st =>
    match st.2 with
    | [] => none
    | c :: cs => if '0' ≤ c ∧ c ≤ '9' then some (st.1 + 1, cs) else none
  | .rep r n, st => iterStep r.run n st
  | .cat r s, st => (r.run st).bind s.run

/-- The method `(*Regexp).MatchString`: does some substring of `s` match. -/
def Re.MatchString (r : Re) (s : String) : Bool :=
  (List.range (s.data.length + 1)).any fun i => (r.run (i, s.data.drop i)).isSome

/-! ## Library values: time, uuid, float64 -/

/-- A `time.Time`: nanoseconds elapsed since the zero time. -/
structure Time where
  nanos : Nat
  deriving DecidableEq, Repr

/-- The method `Time.IsZero`. -/
def Time.IsZero (t : Time) : Bool := t.nanos == 0

/-- A finite `float64`, the value `mant * 2 ^ exp`. The program only stores and
copies prices, it never computes with them. -/
structure Float64 where
  mant : Int
  exp : Int
  deriving DecidableEq, Repr

/-- A `uuid.UUID`: its 128 bits as a number. -/
structure UUID where
  bits : Nat
  deriving DecidableEq, Repr

/-- One lower-case hexadecimal digit. -/
def hexDigit (n : Nat) : Char :=
  if n % 16 < 10 then Char.ofNat (48 + n % 16) else Char.ofNat (87 + n % 16)

/-- The lowest `width` hexadecimal digits of `v`, most significant first. -/
def hex : (width : Nat) → (v : Nat) → List Char
  | 0, _ => []
  | width + 1, v => hex width (v / 16) ++ [hexDigit v]

/-- The method `UUID.String`: the form `xxxxxxxx-xxxx-xxxx-xxxx-xxxxxxxxxxxx`. -/
def UUID.String (u : UUID) : String :=
  ⟨hex 8 (u.bits / 2 ^ 96) ++ '-' :: hex 4 (u.bits / 2 ^ 80) ++ '-' :: hex 4 (u.bits / 2 ^ 64)
    ++ '-' :: hex 4 (u.bits / 2 ^ 48) ++ '-' :: hex 12 u.bits⟩

/-! ## The state the two services act on -/

/-- Type `repo.Customer`, also a row of the table `customers`. -/
structure Customer where
  ID : String
  IDN : String
  CreatedAt : Time
  deriving DecidableEq, Repr

/-- Type `repo.Shipment`, also a row of the table `shipments`. -/
structure Shipment where
  ID : String
  Route : String
  Price : Float64
  Status : String
  CustomerID : String
  CreatedAt : Time
  deriving DecidableEq, Repr

/-- What the services emit while they run. -/
inductive Event where
  /-- Call `otel.Tracer(tracer).Start(ctx, name)` -/
  | span (tracer name : String)
  /-- a unary call sent by the gRPC client stub -/
  | rpc (method idn : String)
  deriving DecidableEq, Repr

/-- The tables of the two databases and the events emitted so far. -/
structure World where
  customers : List Customer
  shipments : List Shipment
  trace : List Event
  deriving DecidableEq, Repr

/-- Appends an event to the trace. -/
def World.emit (w : World) (e : Event) : World :=
  { w with trace := w.trace ++ [e] }

/-- What one repository call obtains from outside the program. -/
structure DbEnv where
  /-- the error `database/sql` reports for the SELECT, if the query itself fails -/
  queryErr : Option GoError
  /-- the error `database/sql` reports for the INSERT, if the statement fails -/
  execErr : Option GoError
  /-- the result of `uuid.New()` -/
  uuid : UUID
  /-- the result of `time.Now()` -/
  now : Time

/-- Call `QueryRowContext(...).Scan(...)` for a query selecting `row`: the scanned row,
`sql.ErrNoRows` when there is none, or the failure of the query. -/
def scanRow {α : Type} (env : DbEnv) (row : Option α) : Except GoError α :=
  match env.queryErr with
  | some err => .error err
  | none =>
    match row with
    | some r => .ok r
    | none => .error .errNoRows

namespace customer.repo

/-- Statement `SELECT id, idn, created_at FROM customers WHERE idn = $1`. -/
def selectByIDN (rows : List Customer) (idn : String) : Option Customer :=
  rows.find? fun r => r.IDN = idn

/-- Statement `SELECT id, idn, created_at FROM customers WHERE id = $1`. -/
def selectByID (rows : List Customer) (id : String) : Option Customer :=
  rows.find? fun r => r.ID = id

/-- Statement `INSERT INTO customers ... ON CONFLICT (idn) DO UPDATE SET idn = EXCLUDED.idn
RETURNING id, idn, created_at`: the new table and the returned row. -/
def insertOnConflict (rows : List Customer) (c : Customer) : List Customer × Customer :=
  match selectByIDN rows c.IDN with
  | some r =>
    (rows.map fun x => if x.IDN = c.IDN then { x with IDN := c.IDN } else x,
     { r with IDN := c.IDN })
  | none => (rows ++ [c], c)

/-- Method `Repository.UpsertCustomer`. -/
def Repository.UpsertCustomer (env : DbEnv) (idn : String) (w : World) :
    World × Except GoError Customer :=
  let w := w.emit (.span "customer-repo" "UpsertCustomer")
  match scanRow env (selectByIDN w.customers idn) with
  | .ok customer => (w, .ok customer)
  | .error err =>
    if err ≠ .errNoRows then
      (w, .error (.wrap "failed to query customer: " err))
    else
      let customer : Customer := { ID := env.uuid.String, IDN := idn, CreatedAt := env.now }
      match env.execErr with
      | some err => (w, .error (.wrap "failed to insert customer: " err))
      | none =>
        let res := insertOnConflict w.customers customer
        ({ w with customers := res.1 }, .ok res.2)

/-- Method `Repository.GetCustomer`. -/
def Repository.GetCustomer (env : DbEnv) (idn : String) (w : World) :
    World × Except GoError Customer :=
  let w := w.emit (.span "customer-repo" "GetCustomer")
  match scanRow env (selectByIDN w.customers idn) with
  | .error err =>
    if err = .errNoRows then
      (w, .error (.msg "customer not found"))
    else
      (w, .error (.wrap "failed to query customer: " err))
  | .ok customer => (w, .ok customer)

/-- Method `Repository.GetCustomerByID`. -/
def Repository.GetCustomerByID (env : DbEnv) (id : String) (w : World) :
    World × Except GoError Customer :=
  let w := w.emit (.span "customer-repo" "GetCustomerByID")
  match scanRow env (selectByID w.customers id) with
  | .error err =>
    if err = .errNoRows then
      (w, .error (.msg "customer not found"))
    else
      (w, .error (.wrap "failed to query customer: " err))
  | .ok customer => (w, .ok customer)

end customer.repo

/-! ## Customer service (`internal/customer/service/service.go`) -/

namespace customer.service
open customer.repo


/-- The pattern `^\d{12}$`. -/
def idnRegex : Re := .cat .beginText (.cat (.rep .perlDigit 12) .endText)

/-- Method `Service.ValidateIDN`. -/
def Service.ValidateIDN (idn : String) : Option GoError :=
  if !idnRegex.MatchString idn then
    some (.msg "idn must be exactly 12 digits")
  else
    none

/-- Method `Service.UpsertCustomer`. -/
def Service.UpsertCustomer (env : DbEnv) (idn : String) (w : World) :
    World × Except GoError Customer :=
  match Service.ValidateIDN idn with
  | some err => (w, .error err)
  | none =>
    match Repository.UpsertCustomer env idn w with
    | (w1, .error err) => (w1, .error (.wrap "failed to upsert customer: " err))
    | (w1, .ok customer) => (w1, .ok customer)

/-- Method `Service.GetCustomer`. -/
def Service.GetCustomer (env : DbEnv) (idn : String) (w : World) :
    World × Except GoError Customer :=
  match Service.ValidateIDN idn with
  | some err => (w, .error err)
  | none =>
    match Repository.GetCustomer env idn w with
    | (w1, .error err) => (w1, .error (.wrap "failed to get customer: " err))
    | (w1, .ok customer) => (w1, .ok customer)

end customer.service

/-! ## Customer gRPC server (`internal/customer/grpc/server.go`) -/

/-- Type `pb.CustomerResponse`. The wire carries `CreatedAt.Format(time.RFC3339)`; the
embedding keeps the instant it is formatted from. -/
structure CustomerResponse where
  Id : String
  Idn : String
  CreatedAt : Time
  deriving DecidableEq, Repr

namespace customer.grpc
open customer.service

/-- Method `Server.UpsertCustomer`, for a request carrying `idn`. -/
def Server.UpsertCustomer (env : DbEnv) (idn : String) (w : World) :
    World × Except GoError CustomerResponse :=
  let w := w.emit (.span "customer-grpc" "UpsertCustomer")
  match Service.UpsertCustomer env idn w with
  | (w1, .error err) =>
    (w1, .error (.status codes.Internal ("failed to upsert customer: " ++ err.Error)))
  | (w1, .ok c) => (w1, .ok { Id := c.ID, Idn := c.IDN, CreatedAt := c.CreatedAt })

/-- Method `Server.GetCustomer`, for a request carrying `idn`. -/
def Server.GetCustomer (env : DbEnv) (idn : String) (w : World) :
    World × Except GoError CustomerResponse :=
  let w := w.emit (.span "customer-grpc" "GetCustomer")
  match Service.GetCustomer env idn w with
  | (w1, .error err) =>
    if err.Error = "customer not found" then
      (w1, .error (.status codes.NotFound "customer not found"))
    else
      (w1, .error (.status codes.Internal ("failed to get customer: " ++ err.Error)))
  | (w1, .ok c) => (w1, .ok { Id := c.ID, Idn := c.IDN, CreatedAt := c.CreatedAt })

end customer.grpc

/-! ## Customer gRPC client (`internal/shipment/grpc/client.go`) -/

/-- What one remote call obtains from outside the program. -/
structure RpcEnv where
  /-- the transport error when the request does not reach the server -/
  sendErr : Option GoError
  /-- the transport error when the server ran but its answer is lost -/
  recvErr : Option GoError
  /-- the environment of the customer repository on the server side -/
  server : DbEnv

namespace shipment.grpc

/-- The generated stub `pb.CustomerServiceClient.UpsertCustomer`: the call travels to
the customer gRPC server and its answer travels back. -/
def stubUpsertCustomer (env : RpcEnv) (idn : String) (w : World) :
    World × Except GoError CustomerResponse :=
  let w := w.emit (.rpc "UpsertCustomer" idn)
  match env.sendErr with
  | some err => (w, .error err)
  | none =>
    match customer.grpc.Server.UpsertCustomer env.server idn w with
    | (w1, res) =>
      match env.recvErr with
      | some err => (w1, .error err)
      | none => (w1, res)

/-- The generated stub `pb.CustomerServiceClient.GetCustomer`. -/
def stubGetCustomer (env : RpcEnv) (idn : String) (w : World) :
    World × Except GoError CustomerResponse :=
  let w := w.emit (.rpc "GetCustomer" idn)
  match env.sendErr with
  | some err => (w, .error err)
  | none =>
    match customer.grpc.Server.GetCustomer env.server idn w with
    | (w1, res) =>
      match env.recvErr with
      | some err => (w1, .error err)
      | none => (w1, res)

/-- Method `Client.UpsertCustomer`. -/
def Client.UpsertCustomer (env : RpcEnv) (idn : String) (w : World) :
    World × Except GoError CustomerResponse :=
  stubUpsertCustomer env idn w

/-- Method `Client.GetCustomer`. -/
def Client.GetCustomer (env : RpcEnv) (idn : String) (w : World) :
    World × Except GoError CustomerResponse :=
  stubGetCustomer env idn w

end shipment.grpc

/-! ## Shipment repository (`internal/shipment/repo/postgres.go`) -/

namespace shipment.repo

/-- Statement `SELECT ... FROM shipments WHERE id = $1`. -/
def selectByID (rows : List Shipment) (id : String) : Option Shipment :=
  rows.find? fun r => r.ID = id

/-- Method `Repository.CreateShipment`. The Go function fills the shipment it is given
through the pointer; the filled shipment is returned next to the error. -/
def Repository.CreateShipment (env : DbEnv) (shipment : Shipment) (w : World) :
    World × Shipment × Option GoError :=
  let w := w.emit (.span "shipment-repo" "CreateShipment")
  let shipment := if shipment.ID = "" then { shipment with ID := env.uuid.String } else shipment
  let shipment := if shipment.Status = "" then { shipment with Status := "CREATED" } else shipment
  let shipment :=
    if shipment.CreatedAt.IsZero then { shipment with CreatedAt := env.now } else shipment
  match env.execErr with
  | some err => (w, shipment, some (.wrap "failed to insert shipment: " err))
  | none => ({ w with shipments := w.shipments ++ [shipment] }, shipment, none)

/-- Method `Repository.GetShipment`. -/
def Repository.GetShipment (env : DbEnv) (id : String) (w : World) :
    World × Except GoError Shipment :=
  let w := w.emit (.span "shipment-repo" "GetShipment")
  match scanRow env (selectByID w.shipments id) with
  | .error err =>
    if err = .errNoRows then
      (w, .error (.msg "shipment not found"))
    else
      (w, .error (.wrap "failed to query shipment: " err))
  | .ok shipment => (w, .ok shipment)

end shipment.repo

/-! ## Shipment service (`internal/shipment/service/service.go`) -/

namespace shipment.service
open shipment.repo shipment.grpc

/-- Type `service.CreateShipmentRequest`; the field `IDN` is `Customer.IDN`. -/
structure CreateShipmentRequest where
  Route : String
  Price : Float64
  IDN : String
  deriving DecidableEq, Repr

/-- What one call of the shipment service obtains from outside the program. -/
structure Env where
  /-- for the call to the customer service -/
  rpc : RpcEnv
  /-- for the shipment repository -/
  db : DbEnv

/-- Method `Service.CreateShipment`. -/
def Service.CreateShipment (env : Env) (req : CreateShipmentRequest) (w : World) :
    World × Except GoError Shipment :=
  let w := w.emit (.span "shipment-service" "CreateShipment")
  if len req.IDN ≠ 12 then
    (w, .error (.msg "idn must be exactly 12 digits"))
  else
    match Client.UpsertCustomer env.rpc req.IDN w with
    | (w1, .error err) => (w1, .error (.wrap "failed to upsert customer: " err))
    | (w1, .ok customerResp) =>
      let shipment : Shipment :=
        { ID := "", Route := req.Route, Price := req.Price, Status := "CREATED",
          CustomerID := customerResp.Id, CreatedAt := ⟨0⟩ }
      match Repository.CreateShipment env.db shipment w1 with
      | (w2, _, some err) => (w2, .error (.wrap "failed to create shipment: " err))
      | (w2, shipment, none) => (w2, .ok shipment)

/-- Method `Service.GetShipment`. -/
def Service.GetShipment (env : DbEnv) (id : String) (w : World) :
    World × Except GoError Shipment :=
  let w := w.emit (.span "shipment-service" "GetShipment")
  match Repository.GetShipment env id w with
  | (w1, .error err) => (w1, .error (.wrap "failed to get shipment: " err))
  | (w1, .ok shipment) => (w1, .ok shipment)

end shipment.service

/-! ## Shipment HTTP handlers (`internal/shipment/http/handlers.go`) -/

namespace shipment.http
open shipment.service

/-- Type `http.CreateShipmentRequest`, the decoded body; `IDN` is `Customer.IDN`. -/
structure CreateShipmentRequest where
  Route : String
  Price : Float64
  IDN : String
  deriving DecidableEq, Repr

/-- Type `ShipmentResponse`. -/
structure ShipmentResponse where
  ID : String
  Route : String
  Price : Float64
  Status : String
  CustomerID : String
  CreatedAt : Time
  deriving DecidableEq, Repr

/-- What a handler writes. -/
inductive Body where
  /-- the text written by `http.Error` -/
  | text (s : String)
  /-- the value given to `json.NewEncoder(w).Encode` -/
  | json (r : ShipmentResponse)
  deriving DecidableEq, Repr

/-- The answer a handler leaves in the `http.ResponseWriter`. -/
structure Response where
  status : Nat
  body : Body
  deriving DecidableEq, Repr

def StatusOK : Nat := 200
def StatusCreated : Nat := 201
def StatusBadRequest : Nat := 400
def StatusNotFound : Nat := 404
def StatusInternalServerError : Nat := 500

/-- The function `http.Error`. -/
def Error (error : String) (code : Nat) : Response :=
  { status := code, body := .text (error ++ "\n") }

/-- The type of `json.NewDecoder(r.Body).Decode(&req)` as a function of the body. -/
abbrev Decoder := String → Except GoError CreateShipmentRequest

/-- Method `Handler.CreateShipment`, for a request with the given body. -/
def Handler.CreateShipment (decode : Decoder) (env : Env) (body : String) (w : World) :
    World × Response :=
  let w := w.emit (.span "shipment-http" "CreateShipment")
  match decode body with
  | .error _ => (w, Error "invalid request body" StatusBadRequest)
  | .ok req =>
    match Service.CreateShipment env { Route := req.Route, Price := req.Price, IDN := req.IDN } w
    with
    | (w1, .error err) => (w1, Error err.Error StatusInternalServerError)
    | (w1, .ok shipment) =>
      (w1, { status := StatusCreated,
             body := .json { ID := shipment.ID, Route := shipment.Route, Price := shipment.Price,
                             Status := shipment.Status, CustomerID := shipment.CustomerID,
                             CreatedAt := shipment.CreatedAt } })

/-- Method `Handler.GetShipment`, for a request whose path variable `id` is given. -/
def Handler.GetShipment (env : DbEnv) (id : String) (w : World) : World × Response :=
  let w := w.emit (.span "shipment-http" "GetShipment")
  match Service.GetShipment env id w with
  | (w1, .error err) =>
    if err.Error = "shipment not found" then
      (w1, Error "shipment not found" StatusNotFound)
    else
      (w1, Error err.Error StatusInternalServerError)
  | (w1, .ok shipment) =>
    (w1, { status := StatusOK,
           body := .json { ID := shipment.ID, Route := shipment.Route, Price := shipment.Price,
                           Status := shipment.Status, CustomerID := shipment.CustomerID,
                           CreatedAt := shipment.CreatedAt } })

end shipment.http

/-! ## Predicates used in the statements -/

/-- An ASCII decimal digit. -/
def isAsciiDigit (c : Char) : Prop := '0' ≤ c ∧ c ≤ '9'

instance (c : Char) : Decidable (isAsciiDigit c) := by
  unfold isAsciiDigit; infer_instance

/-- Rows carry pairwise different identification numbers (the UNIQUE constraint). -/
def UniqueIDN (rows : List Customer) : Prop :=
  rows.Pairwise fun a b => a.IDN ≠ b.IDN

instance (rows : List Customer) : Decidable (UniqueIDN rows) := by
  unfold UniqueIDN; infer_instance

/-- The sign test `0 <= x` on a `float64`: the value `mant * 2 ^ exp` has the sign of
its mantissa. -/
def Float64.nonneg (x : Float64) : Prop := 0 ≤ x.mant

instance (x : Float64) : Decidable x.nonneg := by
  unfold Float64.nonneg; infer_instance

/-- The errors reached from an error by repeated `errors.Unwrap`, the error itself
included. -/
def GoError.chain : GoError → List GoError
  | .wrap lead inner => .wrap lead inner :: inner.chain
  | .errNoRows => [.errNoRows]
  | .msg text => [.msg text]
  | .status code desc => [.status code desc]

/-- The error kind `NotFoundError` for customers: the lookup-miss error built by the
customer repository, possibly wrapped with context by the layers above it. -/
def NotFoundError (e : GoError) : Prop := GoError.msg "customer not found" ∈ e.chain

instance (e : GoError) : Decidable (NotFoundError e) := by
  unfold NotFoundError; infer_instance

/-! ## Concrete inputs used to run the embedding -/

/-- An environment in which nothing fails. -/
def calmDb : DbEnv :=
  { queryErr := none, execErr := none, uuid := ⟨0⟩, now := ⟨1⟩ }

/-- The text of `UUID.String` for the uuid of `calmDb`. -/
def zeroUuid : String := "00000000-0000-0000-0000-000000000000"

/-- Both tables empty, nothing emitted yet. -/
def emptyWorld : World := { customers := [], shipments := [], trace := [] }

/-- A well-formed identification number. -/
def sampleIDN : String := "123456789012"

/-- The customer row created for `sampleIDN` under `calmDb`. -/
def sampleCustomer : Customer := { ID := zeroUuid, IDN := sampleIDN, CreatedAt := ⟨1⟩ }

/-- An environment of the shipment service in which nothing fails. -/
def calmEnv : shipment.service.Env :=
  { rpc := { sendErr := none, recvErr := none, server := calmDb }, db := calmDb }

/-- An environment of the shipment service whose customer endpoint is unreachable. -/
def unreachableEnv : shipment.service.Env :=
  { rpc := { sendErr := some (.status 14 "connection refused"), recvErr := none,
             server := calmDb },
    db := calmDb }

/-- The request `route NYC-LA, price 100.5, customer sampleIDN`. -/
def sampleRequest : shipment.http.CreateShipmentRequest :=
  { Route := "NYC-LA", Price := ⟨201, -1⟩, IDN := sampleIDN }

/-- The shipment created for `sampleRequest` under `calmEnv`. -/
def sampleShipment : Shipment :=
  { ID := zeroUuid, Route := "NYC-LA", Price := ⟨201, -1⟩, Status := "CREATED",
    CustomerID := zeroUuid, CreatedAt := ⟨1⟩ }

/-- The world the service `CreateShipment` leaves for `sampleRequest`, started in the
empty world under `calmEnv`. -/
def sampleWorld : World :=
  { customers := [sampleCustomer], shipments := [sampleShipment],
    trace := [.span "shipment-service" "CreateShipment", .rpc "UpsertCustomer" sampleIDN,
              .span "customer-grpc" "UpsertCustomer", .span "customer-repo" "UpsertCustomer",
              .span "shipment-repo" "CreateShipment"] }

/-- A decoder that understands the single body `sample` and rejects everything else. -/
def sampleDecoder : shipment.http.Decoder := fun body =>
  if body = "sample" then .ok sampleRequest
  else if body = "short" then .ok { Route := "NYC-LA", Price := ⟨201, -1⟩, IDN := "12345" }
  else .error (.msg "invalid character")

/-- The request `route NYC-LA, price -5, customer sampleIDN`. -/
def negativeRequest : shipment.http.CreateShipmentRequest :=
  { Route := "NYC-LA", Price := ⟨-5, 0⟩, IDN := sampleIDN }

/-- A decoder for the single body `negative`, which holds `negativeRequest`. -/
def negativeDecoder : shipment.http.Decoder := fun body =>
  if body = "negative" then .ok negativeRequest else .error (.msg "invalid character")

/-- The shipment created for `negativeRequest` under `calmEnv`. -/
def negativeShipment : Shipment :=
  { ID := zeroUuid, Route := "NYC-LA", Price := ⟨-5, 0⟩, Status := "CREATED",
    CustomerID := zeroUuid, CreatedAt := ⟨1⟩ }

/-- A database environment whose SELECT fails. -/
def brokenDb : DbEnv :=
  { queryErr := some (.msg "connection refused"), execErr := none, uuid := ⟨0⟩, now := ⟨1⟩ }

/-- A shipment with every field already set. -/
def filledShipment : Shipment :=
  { ID := "s-1", Route := "NYC-LA", Price := ⟨201, -1⟩, Status := "DELIVERED",
    CustomerID := "c-1", CreatedAt := ⟨7⟩ }

/-- A shipment with id, status and creation time left at their zero values. -/
def blankShipment : Shipment :=
  { ID := "", Route := "NYC-LA", Price := ⟨201, -1⟩, Status := "",
    CustomerID := "c-1", CreatedAt := ⟨0⟩ }

/-! ## Lemmas about the regular expression -/

theorem run_perlDigit_nil (pos : Nat) : Re.run .perlDigit (pos, []) = none := rfl

theorem run_perlDigit_cons (pos : Nat) (c : Char) (cs : List Char) :
    Re.run .perlDigit (pos, c :: cs) = if isAsciiDigit c then some (pos + 1, cs) else none := rfl

theorem iterStep_perlDigit (n : Nat) : ∀ (pos : Nat) (cs : List Char),
    iterStep (Re.run .perlDigit) n (pos, cs) =
      if n ≤ cs.length ∧ ∀ c ∈ cs.take n, isAsciiDigit c then some (pos + n, cs.drop n)
      else none := by
  induction n with
  | zero => intro pos cs; simp [iterStep]
  | succ n ih =>
    intro pos cs
    cases cs with
    | nil => simp [iterStep, run_perlDigit_nil]
    | cons c cs =>
      rw [iterStep, run_perlDigit_cons]
      by_cases hc : isAsciiDigit c
      · rw [if_pos hc, Option.bind, ih]
        simp [hc, Nat.add_assoc, Nat.add_comm 1 n]
      · rw [if_neg hc, Option.bind]
        simp [hc]

theorem run_idnRegex (pos : Nat) (cs : List Char) :
    ((customer.service.idnRegex.run (pos, cs)).isSome = true) ↔
      pos = 0 ∧ cs.length = 12 ∧ ∀ c ∈ cs, isAsciiDigit c := by
  have h := iterStep_perlDigit 12 pos cs
  have hrun : customer.service.idnRegex.run (pos, cs) =
      (if pos = 0 then some (pos, cs) else none).bind fun st =>
        (iterStep (Re.run .perlDigit) 12 st).bind fun st2 =>
          if st2.2 = [] then some st2 else none := rfl
  rw [hrun]
  by_cases hp : pos = 0
  · rw [if_pos hp, Option.bind, h]
    by_cases hd : 12 ≤ cs.length ∧ ∀ c ∈ cs.take 12, isAsciiDigit c
    · rw [if_pos hd, Option.bind]
      by_cases he : cs.drop 12 = []
      · have hl : cs.length = 12 := by
          have := List.drop_eq_nil_iff.mp he
          omega
        have ht : cs.take 12 = cs := List.take_of_length_le (by omega)
        rw [ht] at hd
        rw [if_pos he]
        exact ⟨fun _ => ⟨hp, hl, hd.2⟩, fun _ => rfl⟩
      · have hl : cs.length ≠ 12 := by
          intro hl
          exact he (List.drop_eq_nil_iff.mpr (by omega))
        rw [if_neg he]
        exact ⟨fun hx => (by cases hx), fun hx => absurd hx.2.1 hl⟩
    · rw [if_neg hd, Option.bind]
      refine ⟨fun hx => (by cases hx), ?_⟩
      rintro ⟨_, hl, hall⟩
      exact absurd ⟨by omega, fun c hc => hall c (List.mem_of_mem_take hc)⟩ hd
  · rw [if_neg hp, Option.bind]
    exact ⟨fun hx => (by cases hx), fun hx => absurd hx.1 hp⟩

theorem matchString_idnRegex (s : String) :
    customer.service.idnRegex.MatchString s = true ↔
      s.length = 12 ∧ ∀ c ∈ s.data, isAsciiDigit c := by
  unfold Re.MatchString
  rw [List.any_eq_true]
  constructor
  · rintro ⟨i, _, hi⟩
    obtain ⟨h0, hl, hall⟩ := (run_idnRegex i (s.data.drop i)).mp hi
    subst h0
    rw [List.drop_zero] at hl hall
    exact ⟨hl, hall⟩
  · rintro ⟨hl, hall⟩
    refine ⟨0, List.mem_range.mpr (Nat.succ_pos _), ?_⟩
    refine (run_idnRegex 0 (s.data.drop 0)).mpr ⟨rfl, ?_, ?_⟩
    · rw [List.drop_zero]; exact hl
    · rw [List.drop_zero]; exact hall

/-! ## Lemmas about the customer repository -/

@[simp] theorem emit_customers (w : World) (e : Event) : (w.emit e).customers = w.customers := rfl

@[simp] theorem emit_shipments (w : World) (e : Event) : (w.emit e).shipments = w.shipments := rfl

@[simp] theorem emit_trace (w : World) (e : Event) : (w.emit e).trace = w.trace ++ [e] := rfl

theorem selectByIDN_some {rows : List Customer} {idn : String} {r : Customer}
    (h : customer.repo.selectByIDN rows idn = some r) : r.IDN = idn ∧ r ∈ rows := by
  unfold customer.repo.selectByIDN at h
  exact ⟨by simpa using List.find?_some h, List.mem_of_find?_eq_some h⟩

theorem selectByIDN_none {rows : List Customer} {idn : String}
    (h : customer.repo.selectByIDN rows idn = none) : ∀ r ∈ rows, r.IDN ≠ idn := by
  unfold customer.repo.selectByIDN at h
  intro r hr
  simpa using List.find?_eq_none.mp h r hr

theorem selectByIDN_append_new {rows : List Customer} {c : Customer}
    (h : customer.repo.selectByIDN rows c.IDN = none) :
    customer.repo.selectByIDN (rows ++ [c]) c.IDN = some c := by
  unfold customer.repo.selectByIDN at h ⊢
  rw [List.find?_append, h]
  simp

theorem map_set_idn (rows : List Customer) (k : String) :
    (rows.map fun x => if x.IDN = k then { x with IDN := k } else x) = rows := by
  induction rows with
  | nil => rfl
  | cons x xs ih =>
    rw [List.map_cons, ih]
    by_cases hx : x.IDN = k
    · rw [if_pos hx]
      cases x
      simp only at hx
      subst hx
      rfl
    · rw [if_neg hx]

theorem insertOnConflict_found {rows : List Customer} {c r : Customer}
    (h : customer.repo.selectByIDN rows c.IDN = some r) :
    customer.repo.insertOnConflict rows c = (rows, r) := by
  unfold customer.repo.insertOnConflict
  rw [h]
  simp only [map_set_idn]
  have hr := (selectByIDN_some h).1
  cases r
  simp only at hr
  subst hr
  rfl

theorem insertOnConflict_absent {rows : List Customer} {c : Customer}
    (h : customer.repo.selectByIDN rows c.IDN = none) :
    customer.repo.insertOnConflict rows c = (rows ++ [c], c) := by
  unfold customer.repo.insertOnConflict
  rw [h]

/-- What a successful `Repository.UpsertCustomer` has done: either the row was there
and the table is unchanged, or a fresh row was appended. -/
theorem repo_upsert_ok {env : DbEnv} {idn : String} {w w1 : World} {c : Customer}
    (h : customer.repo.Repository.UpsertCustomer env idn w = (w1, .ok c)) :
    w1.shipments = w.shipments ∧
    w1.trace = w.trace ++ [.span "customer-repo" "UpsertCustomer"] ∧
    ((customer.repo.selectByIDN w.customers idn = some c ∧ w1.customers = w.customers) ∨
     (customer.repo.selectByIDN w.customers idn = none ∧
      c = { ID := env.uuid.String, IDN := idn, CreatedAt := env.now } ∧
      w1.customers = w.customers ++ [c])) := by
  unfold customer.repo.Repository.UpsertCustomer scanRow at h
  simp only [emit_customers] at h
  cases hs : customer.repo.selectByIDN w.customers idn with
  | some r =>
    have hins : customer.repo.insertOnConflict w.customers
        { ID := env.uuid.String, IDN := idn, CreatedAt := env.now } = (w.customers, r) :=
      insertOnConflict_found hs
    rw [hs] at h
    cases hq : env.queryErr with
    | none =>
      rw [hq] at h
      simp only [Prod.mk.injEq, Except.ok.injEq] at h
      obtain ⟨hw, hc⟩ := h
      subst hw hc
      exact ⟨rfl, rfl, Or.inl ⟨rfl, rfl⟩⟩
    | some e =>
      rw [hq] at h
      by_cases he : e = .errNoRows
      · cases hx : env.execErr with
        | some e2 => simp [he, hx] at h
        | none =>
          simp only [he, hx, hins, ne_eq, not_true_eq_false, if_false, Prod.mk.injEq,
            Except.ok.injEq] at h
          obtain ⟨hw, hc⟩ := h
          subst hw hc
          exact ⟨rfl, rfl, Or.inl ⟨rfl, rfl⟩⟩
      · simp [he] at h
  | none =>
    have hins : customer.repo.insertOnConflict w.customers
        { ID := env.uuid.String, IDN := idn, CreatedAt := env.now } =
        (w.customers ++ [{ ID := env.uuid.String, IDN := idn, CreatedAt := env.now }],
          { ID := env.uuid.String, IDN := idn, CreatedAt := env.now }) :=
      insertOnConflict_absent hs
    rw [hs] at h
    have key : ∀ e : GoError, (if e ≠ .errNoRows then
          ((w.emit (.span "customer-repo" "UpsertCustomer")),
            (Except.error (.wrap "failed to query customer: " e) : Except GoError Customer))
        else
          match env.execErr with
          | some err => (w.emit (.span "customer-repo" "UpsertCustomer"),
              .error (.wrap "failed to insert customer: " err))
          | none =>
            ({ w.emit (.span "customer-repo" "UpsertCustomer") with
                customers := (customer.repo.insertOnConflict w.customers
                  { ID := env.uuid.String, IDN := idn, CreatedAt := env.now }).1 },
              .ok (customer.repo.insertOnConflict w.customers
                  { ID := env.uuid.String, IDN := idn, CreatedAt := env.now }).2)) = (w1, .ok c) →
        w1.shipments = w.shipments ∧
        w1.trace = w.trace ++ [.span "customer-repo" "UpsertCustomer"] ∧
        c = { ID := env.uuid.String, IDN := idn, CreatedAt := env.now } ∧
        w1.customers = w.customers ++ [c] := by
      intro e h
      by_cases he : e = .errNoRows
      · cases hx : env.execErr with
        | some e2 => simp [he, hx] at h
        | none =>
          simp only [he, hx, hins, ne_eq, not_true_eq_false, if_false, Prod.mk.injEq,
            Except.ok.injEq] at h
          obtain ⟨hw, hc⟩ := h
          subst hw hc
          exact ⟨rfl, rfl, rfl, rfl⟩
      · simp [he] at h
    cases hq : env.queryErr with
    | none =>
      rw [hq] at h
      obtain ⟨h1, h2, h3, h4⟩ := key .errNoRows h
      exact ⟨h1, h2, Or.inr ⟨rfl, h3, h4⟩⟩
    | some e =>
      rw [hq] at h
      obtain ⟨h1, h2, h3, h4⟩ := key e h
      exact ⟨h1, h2, Or.inr ⟨rfl, h3, h4⟩⟩

/-- After a successful upsert the returned row is the row stored under the
identification number. -/
theorem repo_upsert_select {env : DbEnv} {idn : String} {w w1 : World} {c : Customer}
    (h : customer.repo.Repository.UpsertCustomer env idn w = (w1, .ok c)) :
    customer.repo.selectByIDN w1.customers idn = some c := by
  obtain ⟨_, _, hcase⟩ := repo_upsert_ok h
  rcases hcase with ⟨hs, hw⟩ | ⟨hs, hc, hw⟩
  · rw [hw]; exact hs
  · rw [hw]
    have hidn : c.IDN = idn := by rw [hc]
    rw [← hidn] at hs ⊢
    exact selectByIDN_append_new hs

theorem repo_upsert_unique {env : DbEnv} {idn : String} {w w1 : World} {c : Customer}
    (hu : UniqueIDN w.customers)
    (h : customer.repo.Repository.UpsertCustomer env idn w = (w1, .ok c)) :
    UniqueIDN w1.customers := by
  obtain ⟨_, _, hcase⟩ := repo_upsert_ok h
  rcases hcase with ⟨_, hw⟩ | ⟨hs, hc, hw⟩
  · rw [hw]; exact hu
  · rw [hw]
    unfold UniqueIDN at hu ⊢
    rw [List.pairwise_append]
    have hidn : c.IDN = idn := by rw [hc]
    refine ⟨hu, List.pairwise_singleton _ _, ?_⟩
    intro a ha b hb
    rw [List.mem_singleton] at hb
    rw [hb, hidn]
    exact selectByIDN_none hs a ha

theorem count_idn_of_unique {rows : List Customer} {idn : String} {c : Customer}
    (hu : UniqueIDN rows) (hs : customer.repo.selectByIDN rows idn = some c) :
    rows.countP (fun r => r.IDN = idn) = 1 := by
  induction rows with
  | nil => simp [customer.repo.selectByIDN] at hs
  | cons x xs ih =>
    unfold UniqueIDN at hu
    rw [List.pairwise_cons] at hu
    by_cases hx : x.IDN = idn
    · have hzero : xs.countP (fun r => r.IDN = idn) = 0 := by
        rw [List.countP_eq_zero]
        intro a ha
        have := hu.1 a ha
        rw [hx] at this
        simpa using fun h => this h.symm
      rw [List.countP_cons, hzero]
      simp [hx]
    · have hs2 : customer.repo.selectByIDN xs idn = some c := by
        unfold customer.repo.selectByIDN at hs ⊢
        rw [List.find?_cons] at hs
        simpa [hx] using hs
      rw [List.countP_cons, ih hu.2 hs2]
      simp [hx]

theorem validateIDN_invalid {idn : String}
    (h : ¬ (idn.length = 12 ∧ ∀ c ∈ idn.data, '0' ≤ c ∧ c ≤ '9')) :
    customer.service.Service.ValidateIDN idn = some (.msg "idn must be exactly 12 digits") := by
  have hm : ¬ customer.service.idnRegex.MatchString idn = true :=
    fun hx => h ((matchString_idnRegex idn).mp hx)
  rw [Bool.not_eq_true] at hm
  unfold customer.service.Service.ValidateIDN
  rw [hm]
  rfl

theorem validateIDN_valid {idn : String}
    (h : idn.length = 12 ∧ ∀ c ∈ idn.data, '0' ≤ c ∧ c ≤ '9') :
    customer.service.Service.ValidateIDN idn = none := by
  have hm := (matchString_idnRegex idn).mpr h
  unfold customer.service.Service.ValidateIDN
  rw [hm]
  rfl

theorem validateIDN_none_iff (idn : String) :
    customer.service.Service.ValidateIDN idn = none ↔
      (idn.length = 12 ∧ ∀ c ∈ idn.data, '0' ≤ c ∧ c ≤ '9') := by
  constructor
  · intro h
    by_contra hn
    rw [validateIDN_invalid hn] at h
    cases h
  · exact validateIDN_valid

/-! ## Lemmas about error texts -/

theorem append_ne_of_head {a b : String} {x y : Char} {xs ys : List Char}
    (ha : a.data = x :: xs) (hb : b.data = y :: ys) (hxy : x ≠ y) (t : String) :
    a ++ t ≠ b := by
  intro h
  have hd := congrArg String.data h
  rw [String.data_append, ha, hb, List.cons_append] at hd
  exact hxy (List.cons.inj hd).1

/-- The errors `Service.GetCustomer` can return. -/
theorem service_getCustomer_error {env : DbEnv} {idn : String} {w w1 : World} {err : GoError}
    (h : customer.service.Service.GetCustomer env idn w = (w1, .error err)) :
    err = .msg "idn must be exactly 12 digits" ∨
      ∃ e, err = .wrap "failed to get customer: " e := by
  unfold customer.service.Service.GetCustomer at h
  cases hv : customer.service.Service.ValidateIDN idn with
  | some e =>
    rw [hv] at h
    by_cases hd : idn.length = 12 ∧ ∀ c ∈ idn.data, '0' ≤ c ∧ c ≤ '9'
    · rw [validateIDN_valid hd] at hv; cases hv
    · rw [validateIDN_invalid hd] at hv
      simp only [Prod.mk.injEq, Except.error.injEq] at h
      left
      rw [← h.2]
      exact (Option.some.inj hv).symm
  | none =>
    rw [hv] at h
    rcases hr : customer.repo.Repository.GetCustomer env idn w with ⟨w2, r⟩
    rw [hr] at h
    cases r with
    | error e =>
      simp only [Prod.mk.injEq, Except.error.injEq] at h
      exact Or.inr ⟨e, h.2.symm⟩
    | ok c => simp at h

theorem service_getCustomer_error_text {env : DbEnv} {idn : String} {w w1 : World}
    {err : GoError}
    (h : customer.service.Service.GetCustomer env idn w = (w1, .error err)) :
    err.Error ≠ "customer not found" := by
  rcases service_getCustomer_error h with he | ⟨e, he⟩
  · rw [he]; decide
  · rw [he]
    exact append_ne_of_head (x := 'f') (y := 'c') rfl rfl (by decide) e.Error

/-- The errors `Service.GetShipment` can return. -/
theorem service_getShipment_error {env : DbEnv} {id : String} {w w1 : World} {err : GoError}
    (h : shipment.service.Service.GetShipment env id w = (w1, .error err)) :
    ∃ e, err = .wrap "failed to get shipment: " e := by
  unfold shipment.service.Service.GetShipment at h
  rcases hr : shipment.repo.Repository.GetShipment env id
    (w.emit (.span "shipment-service" "GetShipment")) with ⟨w2, r⟩
  simp only [hr] at h
  cases r with
  | error e =>
    simp only [Prod.mk.injEq, Except.error.injEq] at h
    exact ⟨e, h.2.symm⟩
  | ok c => simp at h

theorem service_getShipment_error_text {env : DbEnv} {id : String} {w w1 : World}
    {err : GoError}
    (h : shipment.service.Service.GetShipment env id w = (w1, .error err)) :
    err.Error ≠ "shipment not found" := by
  obtain ⟨e, he⟩ := service_getShipment_error h
  rw [he]
  exact append_ne_of_head (x := 'f') (y := 's') rfl rfl (by decide) e.Error

/-! ## Lemmas about the create-shipment flow -/

theorem utf8Size_ascii (c : Char) (h : c.toNat < 128) : c.utf8Size = 1 := by
  have hle : c.val ≤ UInt32.ofNatCore 0x7F (by decide) := by
    rw [UInt32.le_def, BitVec.le_def]
    have h2 : c.val.toBitVec.toNat < 128 := h
    show c.val.toBitVec.toNat ≤ 127
    omega
  unfold Char.utf8Size
  exact if_pos hle

/-- On ASCII text the byte length is the number of characters. -/
theorem len_ascii (s : String) (h : ∀ c ∈ s.data, c.toNat < 128) : len s = s.length := by
  cases s with
  | mk l =>
  show String.utf8ByteSize.go l = l.length
  induction l with
  | nil => rfl
  | cons c cs ih =>
    have hc := utf8Size_ascii c (h c (List.mem_cons_self _ _))
    have ih2 := ih (fun x hx => h x (List.mem_cons_of_mem _ hx))
    show String.utf8ByteSize.go cs + c.utf8Size = cs.length + 1
    rw [hc, ih2]

theorem uuid_string_ne_empty (u : UUID) : u.String ≠ "" := by
  intro h
  have := congrArg String.data h
  simp [UUID.String] at this

theorem repo_upsert_shipments (env : DbEnv) (idn : String) (w : World) :
    (customer.repo.Repository.UpsertCustomer env idn w).1.shipments = w.shipments := by
  unfold customer.repo.Repository.UpsertCustomer
  simp only
  split
  · rfl
  · split
    · rfl
    · split <;> rfl

theorem service_upsert_shipments (env : DbEnv) (idn : String) (w : World) :
    (customer.service.Service.UpsertCustomer env idn w).1.shipments = w.shipments := by
  unfold customer.service.Service.UpsertCustomer
  have h := repo_upsert_shipments env idn w
  split
  · rfl
  · split
    · rename_i heq; rw [heq] at h; exact h
    · rename_i heq; rw [heq] at h; exact h

theorem server_upsert_shipments (env : DbEnv) (idn : String) (w : World) :
    (customer.grpc.Server.UpsertCustomer env idn w).1.shipments = w.shipments := by
  unfold customer.grpc.Server.UpsertCustomer
  have h := service_upsert_shipments env idn (w.emit (.span "customer-grpc" "UpsertCustomer"))
  simp only
  split
  · rename_i heq; rw [heq] at h; exact h
  · rename_i heq; rw [heq] at h; exact h

theorem client_upsert_shipments (env : RpcEnv) (idn : String) (w : World) :
    (shipment.grpc.Client.UpsertCustomer env idn w).1.shipments = w.shipments := by
  unfold shipment.grpc.Client.UpsertCustomer shipment.grpc.stubUpsertCustomer
  have h := server_upsert_shipments env.server idn (w.emit (.rpc "UpsertCustomer" idn))
  simp only
  split
  · rfl
  · split <;> exact h

/-- What a successful call through the client has done on the customer side. -/
theorem client_upsert_ok {env : RpcEnv} {idn : String} {w w1 : World} {resp : CustomerResponse}
    (h : shipment.grpc.Client.UpsertCustomer env idn w = (w1, .ok resp)) :
    customer.service.Service.ValidateIDN idn = none ∧
    ∃ c : Customer,
      customer.repo.Repository.UpsertCustomer env.server idn
        ((w.emit (.rpc "UpsertCustomer" idn)).emit (.span "customer-grpc" "UpsertCustomer")) =
          (w1, .ok c) ∧
      resp = { Id := c.ID, Idn := c.IDN, CreatedAt := c.CreatedAt } := by
  unfold shipment.grpc.Client.UpsertCustomer shipment.grpc.stubUpsertCustomer at h
  simp only at h
  cases hsend : env.sendErr with
  | some e => rw [hsend] at h; simp at h
  | none =>
    rw [hsend] at h
    cases hrecv : env.recvErr with
    | some e => rw [hrecv] at h; simp at h
    | none =>
      rw [hrecv] at h
      simp only at h
      unfold customer.grpc.Server.UpsertCustomer customer.service.Service.UpsertCustomer at h
      simp only at h
      cases hv : customer.service.Service.ValidateIDN idn with
      | some e => rw [hv] at h; simp at h
      | none =>
        rw [hv] at h
        simp only at h
        rcases hr : customer.repo.Repository.UpsertCustomer env.server idn
          ((w.emit (.rpc "UpsertCustomer" idn)).emit (.span "customer-grpc" "UpsertCustomer"))
          with ⟨w2, r⟩
        rw [hr] at h
        cases r with
        | error e => simp at h
        | ok c =>
          simp only [Prod.mk.injEq, Except.ok.injEq] at h
          obtain ⟨hw, hresp⟩ := h
          subst hw
          exact ⟨rfl, c, rfl, hresp.symm⟩

theorem repo_createShipment_fresh (env : DbEnv) (route cid : String) (price : Float64)
    (w : World) :
    shipment.repo.Repository.CreateShipment env
        { ID := "", Route := route, Price := price, Status := "CREATED", CustomerID := cid,
          CreatedAt := ⟨0⟩ } w =
      match env.execErr with
      | some err =>
        (w.emit (.span "shipment-repo" "CreateShipment"),
          { ID := env.uuid.String, Route := route, Price := price, Status := "CREATED",
            CustomerID := cid, CreatedAt := env.now },
          some (.wrap "failed to insert shipment: " err))
      | none =>
        ({ w.emit (.span "shipment-repo" "CreateShipment") with
            shipments := w.shipments ++
              [{ ID := env.uuid.String, Route := route, Price := price, Status := "CREATED",
                 CustomerID := cid, CreatedAt := env.now }] },
          { ID := env.uuid.String, Route := route, Price := price, Status := "CREATED",
            CustomerID := cid, CreatedAt := env.now },
          none) := rfl

/-- The service `CreateShipment` whenever the length check fails. -/
theorem createShipment_bad_length {env : shipment.service.Env}
    {req : shipment.service.CreateShipmentRequest} {w : World} (h : len req.IDN ≠ 12) :
    shipment.service.Service.CreateShipment env req w =
      (w.emit (.span "shipment-service" "CreateShipment"),
        .error (.msg "idn must be exactly 12 digits")) := by
  unfold shipment.service.Service.CreateShipment
  simp only
  rw [if_pos h]

/-- The service `CreateShipment` whenever the call to the customer service fails. -/
theorem createShipment_upstream_error {env : shipment.service.Env}
    {req : shipment.service.CreateShipmentRequest} {w w1 : World} {cause : GoError}
    (hlen : len req.IDN = 12)
    (hrpc : shipment.grpc.Client.UpsertCustomer env.rpc req.IDN
      (w.emit (.span "shipment-service" "CreateShipment")) = (w1, .error cause)) :
    shipment.service.Service.CreateShipment env req w =
      (w1, .error (.wrap "failed to upsert customer: " cause)) := by
  unfold shipment.service.Service.CreateShipment
  simp only
  rw [if_neg (by simpa using hlen), hrpc]

/-- The service `CreateShipment` whenever the call to the customer service succeeds. -/
theorem createShipment_upstream_ok {env : shipment.service.Env}
    {req : shipment.service.CreateShipmentRequest} {w w1 : World} {resp : CustomerResponse}
    (hlen : len req.IDN = 12)
    (hrpc : shipment.grpc.Client.UpsertCustomer env.rpc req.IDN
      (w.emit (.span "shipment-service" "CreateShipment")) = (w1, .ok resp)) :
    shipment.service.Service.CreateShipment env req w =
      match env.db.execErr with
      | some err =>
        (w1.emit (.span "shipment-repo" "CreateShipment"),
          .error (.wrap "failed to create shipment: " (.wrap "failed to insert shipment: " err)))
      | none =>
        ({ w1.emit (.span "shipment-repo" "CreateShipment") with
            shipments := w1.shipments ++
              [{ ID := env.db.uuid.String, Route := req.Route, Price := req.Price,
                 Status := "CREATED", CustomerID := resp.Id, CreatedAt := env.db.now }] },
          .ok { ID := env.db.uuid.String, Route := req.Route, Price := req.Price,
                Status := "CREATED", CustomerID := resp.Id, CreatedAt := env.db.now }) := by
  unfold shipment.service.Service.CreateShipment
  simp only
  rw [if_neg (by simpa using hlen), hrpc]
  simp only
  rw [repo_createShipment_fresh]
  cases env.db.execErr <;> rfl

/-- What a successful service `CreateShipment` has done. -/
theorem createShipment_ok_inv {env : shipment.service.Env}
    {req : shipment.service.CreateShipmentRequest} {w w2 : World} {s : Shipment}
    (h : shipment.service.Service.CreateShipment env req w = (w2, .ok s)) :
    len req.IDN = 12 ∧
    ∃ (w1 : World) (resp : CustomerResponse),
      shipment.grpc.Client.UpsertCustomer env.rpc req.IDN
        (w.emit (.span "shipment-service" "CreateShipment")) = (w1, .ok resp) ∧
      s = { ID := env.db.uuid.String, Route := req.Route, Price := req.Price,
            Status := "CREATED", CustomerID := resp.Id, CreatedAt := env.db.now } ∧
      w2 = { w1.emit (.span "shipment-repo" "CreateShipment") with
              shipments := w1.shipments ++ [s] } := by
  by_cases hlen : len req.IDN = 12
  · refine ⟨hlen, ?_⟩
    rcases hc : shipment.grpc.Client.UpsertCustomer env.rpc req.IDN
      (w.emit (.span "shipment-service" "CreateShipment")) with ⟨w1, r⟩
    cases r with
    | error cause =>
      rw [createShipment_upstream_error hlen hc] at h
      simp at h
    | ok resp =>
      rw [createShipment_upstream_ok hlen hc] at h
      cases hx : env.db.execErr with
      | some e => rw [hx] at h; simp at h
      | none =>
        rw [hx] at h
        simp only [Prod.mk.injEq, Except.ok.injEq] at h
        obtain ⟨hw, hs⟩ := h
        subst hs
        exact ⟨w1, resp, rfl, rfl, hw.symm⟩
  · rw [createShipment_bad_length hlen] at h
    simp at h

theorem repo_upsert_trace (env : DbEnv) (idn : String) (w : World) :
    (customer.repo.Repository.UpsertCustomer env idn w).1.trace =
      w.trace ++ [.span "customer-repo" "UpsertCustomer"] := by
  unfold customer.repo.Repository.UpsertCustomer
  simp only
  split
  · rfl
  · split
    · rfl
    · split <;> rfl

theorem service_upsert_trace (env : DbEnv) (idn : String) (w : World) :
    ∃ l, (customer.service.Service.UpsertCustomer env idn w).1.trace = w.trace ++ l ∧
      Event.span "shipment-repo" "CreateShipment" ∉ l := by
  unfold customer.service.Service.UpsertCustomer
  have h := repo_upsert_trace env idn w
  split
  · exact ⟨[], (List.append_nil _).symm, List.not_mem_nil _⟩
  · split
    · rename_i heq; rw [heq] at h; exact ⟨_, h, by decide⟩
    · rename_i heq; rw [heq] at h; exact ⟨_, h, by decide⟩

theorem server_upsert_trace (env : DbEnv) (idn : String) (w : World) :
    ∃ l, (customer.grpc.Server.UpsertCustomer env idn w).1.trace = w.trace ++ l ∧
      Event.span "shipment-repo" "CreateShipment" ∉ l := by
  unfold customer.grpc.Server.UpsertCustomer
  obtain ⟨l, h, hl⟩ :=
    service_upsert_trace env idn (w.emit (.span "customer-grpc" "UpsertCustomer"))
  have hmem : Event.span "shipment-repo" "CreateShipment" ∉
      Event.span "customer-grpc" "UpsertCustomer" :: l := by
    rw [List.mem_cons]
    rintro (h1 | h1)
    · revert h1; decide
    · exact hl h1
  rw [emit_trace, List.append_assoc, List.singleton_append] at h
  simp only
  split
  · rename_i heq; rw [heq] at h; exact ⟨_, h, hmem⟩
  · rename_i heq; rw [heq] at h; exact ⟨_, h, hmem⟩

theorem client_upsert_trace (env : RpcEnv) (idn : String) (w : World) :
    ∃ l, (shipment.grpc.Client.UpsertCustomer env idn w).1.trace = w.trace ++ l ∧
      Event.span "shipment-repo" "CreateShipment" ∉ l := by
  unfold shipment.grpc.Client.UpsertCustomer shipment.grpc.stubUpsertCustomer
  obtain ⟨l, h, hl⟩ := server_upsert_trace env.server idn (w.emit (.rpc "UpsertCustomer" idn))
  have hmem : Event.span "shipment-repo" "CreateShipment" ∉
      Event.rpc "UpsertCustomer" idn :: l := by
    rw [List.mem_cons]
    rintro (h1 | h1)
    · cases h1
    · exact hl h1
  rw [emit_trace, List.append_assoc, List.singleton_append] at h
  simp only
  split
  · refine ⟨[.rpc "UpsertCustomer" idn], rfl, ?_⟩
    rw [List.mem_singleton]
    intro h1
    cases h1
  · split
    · exact ⟨_, h, hmem⟩
    · exact ⟨_, h, hmem⟩

/-- The handler `CreateShipment` once the body is decoded. -/
theorem handler_createShipment_decoded {decode : shipment.http.Decoder}
    {env : shipment.service.Env} {body : String} {w : World}
    {req : shipment.http.CreateShipmentRequest} (hdec : decode body = .ok req) :
    shipment.http.Handler.CreateShipment decode env body w =
      match shipment.service.Service.CreateShipment env
        { Route := req.Route, Price := req.Price, IDN := req.IDN }
        (w.emit (.span "shipment-http" "CreateShipment")) with
      | (w1, .error err) =>
        (w1, shipment.http.Error err.Error shipment.http.StatusInternalServerError)
      | (w1, .ok sh) =>
        (w1, { status := shipment.http.StatusCreated,
               body := .json { ID := sh.ID, Route := sh.Route, Price := sh.Price,
                               Status := sh.Status, CustomerID := sh.CustomerID,
                               CreatedAt := sh.CreatedAt } }) := by
  unfold shipment.http.Handler.CreateShipment
  simp only
  rw [hdec]

/-- The handler `CreateShipment` when the body does not decode. -/
theorem handler_createShipment_undecoded {decode : shipment.http.Decoder}
    {env : shipment.service.Env} {body : String} {w : World} {e : GoError}
    (hdec : decode body = .error e) :
    shipment.http.Handler.CreateShipment decode env body w =
      (w.emit (.span "shipment-http" "CreateShipment"),
        shipment.http.Error "invalid request body" shipment.http.StatusBadRequest) := by
  unfold shipment.http.Handler.CreateShipment
  simp only
  rw [hdec]

/-! ## Lemmas about the shipment repository and the persisted rows -/

/-- The row `Repository.CreateShipment` hands to the INSERT: the given shipment with
its defaults filled in. -/
theorem repo_createShipment_eq (env : DbEnv) (sh : Shipment) (w : World) :
    shipment.repo.Repository.CreateShipment env sh w =
      match env.execErr with
      | some err =>
        (w.emit (.span "shipment-repo" "CreateShipment"),
          { ID := if sh.ID = "" then env.uuid.String else sh.ID, Route := sh.Route,
            Price := sh.Price, Status := if sh.Status = "" then "CREATED" else sh.Status,
            CustomerID := sh.CustomerID,
            CreatedAt := if sh.CreatedAt.IsZero then env.now else sh.CreatedAt },
          some (.wrap "failed to insert shipment: " err))
      | none =>
        ({ w.emit (.span "shipment-repo" "CreateShipment") with
            shipments := w.shipments ++
              [{ ID := if sh.ID = "" then env.uuid.String else sh.ID, Route := sh.Route,
                 Price := sh.Price, Status := if sh.Status = "" then "CREATED" else sh.Status,
                 CustomerID := sh.CustomerID,
                 CreatedAt := if sh.CreatedAt.IsZero then env.now else sh.CreatedAt }] },
          { ID := if sh.ID = "" then env.uuid.String else sh.ID, Route := sh.Route,
            Price := sh.Price, Status := if sh.Status = "" then "CREATED" else sh.Status,
            CustomerID := sh.CustomerID,
            CreatedAt := if sh.CreatedAt.IsZero then env.now else sh.CreatedAt },
          none) := by
  unfold shipment.repo.Repository.CreateShipment
  cases sh with
  | mk id route price status cid created =>
    by_cases h1 : id = "" <;> by_cases h2 : status = "" <;>
      by_cases h3 : created.IsZero = true <;>
      simp only [h1, h2, h3, if_true, if_false] <;> rfl

/-- The shipment table after the service `CreateShipment`: unchanged on every failure,
extended by the returned shipment on success. -/
theorem createShipment_shipments (env : shipment.service.Env)
    (req : shipment.service.CreateShipmentRequest) (w : World) :
    (∃ err, (shipment.service.Service.CreateShipment env req w).2 = .error err ∧
      (shipment.service.Service.CreateShipment env req w).1.shipments = w.shipments) ∨
    (∃ s, (shipment.service.Service.CreateShipment env req w).2 = .ok s ∧
      (shipment.service.Service.CreateShipment env req w).1.shipments = w.shipments ++ [s] ∧
      s.Price = req.Price) := by
  by_cases hlen : len req.IDN = 12
  · rcases hc : shipment.grpc.Client.UpsertCustomer env.rpc req.IDN
      (w.emit (.span "shipment-service" "CreateShipment")) with ⟨w1, r⟩
    have hship := client_upsert_shipments env.rpc req.IDN
      (w.emit (.span "shipment-service" "CreateShipment"))
    rw [hc] at hship
    have hship1 : w1.shipments = w.shipments := hship
    cases r with
    | error cause =>
      rw [createShipment_upstream_error hlen hc]
      exact Or.inl ⟨_, rfl, hship1⟩
    | ok resp =>
      rw [createShipment_upstream_ok hlen hc]
      cases env.db.execErr with
      | some e => exact Or.inl ⟨_, rfl, hship1⟩
      | none =>
        refine Or.inr ⟨_, rfl, ?_, rfl⟩
        show w1.shipments ++ _ = w.shipments ++ _
        rw [hship1]
  · rw [createShipment_bad_length hlen]
    exact Or.inl ⟨_, rfl, rfl⟩

/-! ## Theorems -/

/-- C1: `ValidateIDN` returns an error if and only if the identifier is not exactly
twelve decimal digits `0`-`9`; the error is the validation error. -/
theorem validateIDN_error_iff (idn : String) :
    (customer.service.Service.ValidateIDN idn ≠ none ↔
      ¬ (idn.length = 12 ∧ ∀ c ∈ idn.data, '0' ≤ c ∧ c ≤ '9')) ∧
    (customer.service.Service.ValidateIDN idn = none ∨
      customer.service.Service.ValidateIDN idn = some (.msg "idn must be exactly 12 digits")) := by
  have h := matchString_idnRegex idn
  unfold isAsciiDigit at h
  unfold customer.service.Service.ValidateIDN
  by_cases hm : customer.service.idnRegex.MatchString idn = true
  · have h12 := h.mp hm
    rw [hm]
    exact ⟨⟨fun hx => absurd rfl hx, fun hx => absurd h12 hx⟩, Or.inl rfl⟩
  · have hn : ¬ (idn.length = 12 ∧ ∀ c ∈ idn.data, '0' ≤ c ∧ c ≤ '9') := fun hx => hm (h.mpr hx)
    rw [Bool.not_eq_true] at hm
    rw [hm]
    exact ⟨⟨fun _ => hn, fun _ hx => (by cases hx)⟩, Or.inr rfl⟩

/-- C2: from a customer table with unique identification numbers, two successive
successful calls of the repository `UpsertCustomer` with the same identification number
return the same customer id, and afterwards exactly one row carries that number. -/
theorem upsertCustomer_twice_same_id (env1 env2 : DbEnv) (idn : String) (w w1 w2 : World)
    (c1 c2 : Customer)
    (hunique : UniqueIDN w.customers)
    (h1 : customer.repo.Repository.UpsertCustomer env1 idn w = (w1, .ok c1))
    (h2 : customer.repo.Repository.UpsertCustomer env2 idn w1 = (w2, .ok c2)) :
    c1.ID = c2.ID ∧ w2.customers.countP (fun r => r.IDN = idn) = 1 := by
  have hs1 := repo_upsert_select h1
  have hu1 := repo_upsert_unique hunique h1
  obtain ⟨_, _, hcase⟩ := repo_upsert_ok h2
  rcases hcase with ⟨hs, hw⟩ | ⟨hs, _, _⟩
  · rw [hs1] at hs
    have hc : c1 = c2 := Option.some.inj hs
    rw [hw, hc]
    rw [hc] at hs1
    exact ⟨rfl, count_idn_of_unique hu1 hs1⟩
  · rw [hs1] at hs; cases hs

/-- Witness for C2: upserting `sampleIDN` twice into the empty table. -/
theorem upsertCustomer_twice_same_id_witness :
    sampleCustomer.ID = sampleCustomer.ID ∧
      ([sampleCustomer].countP fun r => r.IDN = sampleIDN) = 1 :=
  upsertCustomer_twice_same_id calmDb calmDb sampleIDN emptyWorld
    { customers := [sampleCustomer], shipments := [],
      trace := [.span "customer-repo" "UpsertCustomer"] }
    { customers := [sampleCustomer], shipments := [],
      trace := [.span "customer-repo" "UpsertCustomer", .span "customer-repo" "UpsertCustomer"] }
    sampleCustomer sampleCustomer (by decide) (by decide) (by decide)

/-- C3 (the code departs from it): for the well-formed identification number
`sampleIDN` with no row in the table, the gRPC `GetCustomer` answers with code INTERNAL,
and on no input at all does it answer with code NOT_FOUND. -/
theorem grpc_getCustomer_never_not_found :
    (customer.grpc.Server.GetCustomer calmDb sampleIDN emptyWorld).2 =
        .error (.status codes.Internal
          "failed to get customer: failed to get customer: customer not found") ∧
    ∀ (env : DbEnv) (idn : String) (w : World) (desc : String),
      (customer.grpc.Server.GetCustomer env idn w).2 ≠ .error (.status codes.NotFound desc) := by
  refine ⟨by decide, ?_⟩
  intro env idn w desc
  unfold customer.grpc.Server.GetCustomer
  rcases hr : customer.service.Service.GetCustomer env idn
    (w.emit (.span "customer-grpc" "GetCustomer")) with ⟨w1, r⟩
  simp only [hr]
  cases r with
  | error err =>
    have ht := service_getCustomer_error_text hr
    simp only [ht, if_false]
    intro h
    have hcode := (GoError.status.inj (Except.error.inj h)).1
    revert hcode
    decide
  | ok c =>
    intro h
    cases h

/-- C4 (the code departs from it): for a shipment id with no row in the table, the
handler `GetShipment` answers 500, and on no input at all does it answer 404. -/
theorem http_getShipment_never_404 :
    (shipment.http.Handler.GetShipment calmDb "unknown-id" emptyWorld).2 =
        shipment.http.Error "failed to get shipment: shipment not found"
          shipment.http.StatusInternalServerError ∧
    ∀ (env : DbEnv) (id : String) (w : World),
      (shipment.http.Handler.GetShipment env id w).2.status ≠ shipment.http.StatusNotFound := by
  refine ⟨by decide, ?_⟩
  intro env id w
  unfold shipment.http.Handler.GetShipment
  rcases hr : shipment.service.Service.GetShipment env id
    (w.emit (.span "shipment-http" "GetShipment")) with ⟨w1, r⟩
  simp only [hr]
  cases r with
  | error err =>
    have ht := service_getShipment_error_text hr
    simp only [ht, if_false]
    show shipment.http.StatusInternalServerError ≠ shipment.http.StatusNotFound
    decide
  | ok c =>
    simp only
    decide

/-- C10: for an identification number that is not exactly twelve decimal digits, the
customer service `UpsertCustomer` and `GetCustomer` both return the validation error and
leave the world as it was: no repository call is made, no table changes. -/
theorem customer_service_validation_stops (env : DbEnv) (idn : String) (w : World)
    (hbad : ¬ (idn.length = 12 ∧ ∀ c ∈ idn.data, '0' ≤ c ∧ c ≤ '9')) :
    customer.service.Service.UpsertCustomer env idn w =
        (w, .error (.msg "idn must be exactly 12 digits")) ∧
    customer.service.Service.GetCustomer env idn w =
        (w, .error (.msg "idn must be exactly 12 digits")) := by
  unfold customer.service.Service.UpsertCustomer customer.service.Service.GetCustomer
  rw [validateIDN_invalid hbad]
  exact ⟨rfl, rfl⟩

/-- Witness for C10: the identification number `12345678901a`. -/
theorem customer_service_validation_stops_witness :
    customer.service.Service.UpsertCustomer calmDb "12345678901a" emptyWorld =
        (emptyWorld, .error (.msg "idn must be exactly 12 digits")) ∧
    customer.service.Service.GetCustomer calmDb "12345678901a" emptyWorld =
        (emptyWorld, .error (.msg "idn must be exactly 12 digits")) :=
  customer_service_validation_stops calmDb "12345678901a" emptyWorld (by decide)

/-- C5: when the identifier passes the length check and the call of the customer gRPC
client fails, the service `CreateShipment` returns an error wrapping the cause and stops
where the client stopped: the shipment table is unchanged, no span of the shipment
repository is started, and the HTTP handler answers 500. -/
theorem createShipment_upstream_failure (env : shipment.service.Env)
    (req : shipment.service.CreateShipmentRequest) (w w1 : World) (cause : GoError)
    (hlen : len req.IDN = 12)
    (hrpc : shipment.grpc.Client.UpsertCustomer env.rpc req.IDN
      (w.emit (.span "shipment-service" "CreateShipment")) = (w1, .error cause)) :
    shipment.service.Service.CreateShipment env req w =
        (w1, .error (.wrap "failed to upsert customer: " cause)) ∧
    w1.shipments = w.shipments ∧
    (∃ l, w1.trace = w.trace ++ l ∧ Event.span "shipment-repo" "CreateShipment" ∉ l) ∧
    ∀ (decode : shipment.http.Decoder) (body : String) (w0 : World),
      w = w0.emit (.span "shipment-http" "CreateShipment") →
      decode body = .ok { Route := req.Route, Price := req.Price, IDN := req.IDN } →
      shipment.http.Handler.CreateShipment decode env body w0 =
        (w1, shipment.http.Error ("failed to upsert customer: " ++ cause.Error)
          shipment.http.StatusInternalServerError) := by
  have hsvc := createShipment_upstream_error hlen hrpc
  have hship := client_upsert_shipments env.rpc req.IDN
    (w.emit (.span "shipment-service" "CreateShipment"))
  obtain ⟨l, htr, hl⟩ := client_upsert_trace env.rpc req.IDN
    (w.emit (.span "shipment-service" "CreateShipment"))
  rw [hrpc] at hship htr
  refine ⟨hsvc, hship, ?_, ?_⟩
  · refine ⟨Event.span "shipment-service" "CreateShipment" :: l, ?_, ?_⟩
    · rw [htr, emit_trace, List.append_assoc, List.singleton_append]
    · rw [List.mem_cons]
      rintro (h1 | h1)
      · revert h1; decide
      · exact hl h1
  · intro decode body w0 hw hdec
    rw [handler_createShipment_decoded hdec]
    simp only
    rw [← hw, hsvc]
    rfl

/-- Witness for C5: the customer endpoint is unreachable. -/
theorem createShipment_upstream_failure_witness :
    shipment.service.Service.CreateShipment unreachableEnv
        { Route := "NYC-LA", Price := ⟨201, -1⟩, IDN := sampleIDN }
        (emptyWorld.emit (.span "shipment-http" "CreateShipment")) =
      ({ customers := [], shipments := [],
         trace := [.span "shipment-http" "CreateShipment",
                   .span "shipment-service" "CreateShipment",
                   .rpc "UpsertCustomer" sampleIDN] },
        .error (.wrap "failed to upsert customer: " (.status 14 "connection refused"))) ∧
    (shipment.http.Handler.CreateShipment sampleDecoder unreachableEnv "sample" emptyWorld).2
        = shipment.http.Error
            "failed to upsert customer: rpc error: code = Unavailable desc = connection refused"
            shipment.http.StatusInternalServerError :=
  have h := createShipment_upstream_failure unreachableEnv
    { Route := "NYC-LA", Price := ⟨201, -1⟩, IDN := sampleIDN }
    (emptyWorld.emit (.span "shipment-http" "CreateShipment"))
    { customers := [], shipments := [],
      trace := [.span "shipment-http" "CreateShipment",
                .span "shipment-service" "CreateShipment",
                .rpc "UpsertCustomer" sampleIDN] }
    (.status 14 "connection refused") (by decide) (by decide)
  ⟨h.1, by rw [h.2.2.2 sampleDecoder "sample" emptyWorld rfl (by decide)]; decide⟩

/-- C6: whenever the service `CreateShipment` succeeds, the returned shipment has status
`CREATED`, the route and price of the request, a non-empty id, the customer id that the
customer upsert call returned, and it is the one row appended to the shipment table. -/
theorem createShipment_result (env : shipment.service.Env)
    (req : shipment.service.CreateShipmentRequest) (w w2 : World) (s : Shipment)
    (h : shipment.service.Service.CreateShipment env req w = (w2, .ok s)) :
    s.Status = "CREATED" ∧ s.Route = req.Route ∧ s.Price = req.Price ∧ s.ID ≠ "" ∧
    (∃ (w1 : World) (resp : CustomerResponse),
      shipment.grpc.Client.UpsertCustomer env.rpc req.IDN
        (w.emit (.span "shipment-service" "CreateShipment")) = (w1, .ok resp) ∧
      s.CustomerID = resp.Id) ∧
    w2.shipments = w.shipments ++ [s] := by
  obtain ⟨_, w1, resp, hrpc, hs, hw⟩ := createShipment_ok_inv h
  have hship := client_upsert_shipments env.rpc req.IDN
    (w.emit (.span "shipment-service" "CreateShipment"))
  rw [hrpc] at hship
  have hid : s.ID ≠ "" := by rw [hs]; exact uuid_string_ne_empty _
  refine ⟨by rw [hs], by rw [hs], by rw [hs], hid, ⟨w1, resp, hrpc, by rw [hs]⟩, ?_⟩
  rw [hw]
  show w1.shipments ++ [s] = w.shipments ++ [s]
  rw [hship]
  rfl

/-- Witness for C6: the sample request in the empty world. -/
theorem createShipment_result_witness :
    sampleShipment.Status = "CREATED" ∧ sampleShipment.Route = "NYC-LA" ∧
    sampleShipment.Price = ⟨201, -1⟩ ∧ sampleShipment.ID ≠ "" ∧
    (∃ (w1 : World) (resp : CustomerResponse),
      shipment.grpc.Client.UpsertCustomer calmEnv.rpc sampleIDN
        (emptyWorld.emit (.span "shipment-service" "CreateShipment")) = (w1, .ok resp) ∧
      sampleShipment.CustomerID = resp.Id) ∧
    sampleWorld.shipments = emptyWorld.shipments ++ [sampleShipment] :=
  createShipment_result calmEnv { Route := "NYC-LA", Price := ⟨201, -1⟩, IDN := sampleIDN }
    emptyWorld sampleWorld sampleShipment (by decide)

/-- C7, as stated, fails: the identifier `€€€€` has four characters and passes the
check of the service `CreateShipment` (the customer client is called), and the
identifier `12345678901é` has twelve characters and is rejected. -/
theorem createShipment_length_check_counterexample :
    ("€€€€".length = 4 ∧
      (shipment.service.Service.CreateShipment calmEnv
          { Route := "NYC-LA", Price := ⟨201, -1⟩, IDN := "€€€€" } emptyWorld).2 ≠
        .error (.msg "idn must be exactly 12 digits") ∧
      Event.rpc "UpsertCustomer" "€€€€" ∈
        (shipment.service.Service.CreateShipment calmEnv
          { Route := "NYC-LA", Price := ⟨201, -1⟩, IDN := "€€€€" } emptyWorld).1.trace) ∧
    ("12345678901é".length = 12 ∧
      shipment.service.Service.CreateShipment calmEnv
          { Route := "NYC-LA", Price := ⟨201, -1⟩, IDN := "12345678901é" } emptyWorld =
        (emptyWorld.emit (.span "shipment-service" "CreateShipment"),
          .error (.msg "idn must be exactly 12 digits"))) := by
  decide

/-- C7, amended: the service `CreateShipment` passes its identifier validation exactly
when the identifier is twelve bytes long, whatever the bytes are; otherwise it returns
the validation error having only started its own span, so neither the customer client
nor the shipment repository is called. For an identifier of ASCII characters only,
twelve bytes are twelve characters. -/
theorem createShipment_length_check (env : shipment.service.Env)
    (req : shipment.service.CreateShipmentRequest) (w : World) :
    ((shipment.service.Service.CreateShipment env req w).2 ≠
        .error (.msg "idn must be exactly 12 digits") ↔ len req.IDN = 12) ∧
    (len req.IDN ≠ 12 →
      shipment.service.Service.CreateShipment env req w =
        (w.emit (.span "shipment-service" "CreateShipment"),
          .error (.msg "idn must be exactly 12 digits"))) ∧
    ((∀ c ∈ req.IDN.data, c.toNat < 128) → (len req.IDN = 12 ↔ req.IDN.length = 12)) := by
  refine ⟨⟨?_, ?_⟩, fun h => createShipment_bad_length h, fun h => by rw [len_ascii _ h]⟩
  · intro h
    by_contra hlen
    rw [createShipment_bad_length hlen] at h
    exact h rfl
  · intro hlen
    rcases hc : shipment.grpc.Client.UpsertCustomer env.rpc req.IDN
      (w.emit (.span "shipment-service" "CreateShipment")) with ⟨w1, r⟩
    cases r with
    | error cause =>
      rw [createShipment_upstream_error hlen hc]
      intro hx
      cases hx
    | ok resp =>
      rw [createShipment_upstream_ok hlen hc]
      cases env.db.execErr with
      | some e => intro hx; cases hx
      | none => intro hx; cases hx

/-- Witness for C7: a five-byte identifier is rejected, and the twelve ASCII characters
of `sampleIDN` are twelve bytes. -/
theorem createShipment_length_check_witness :
    shipment.service.Service.CreateShipment calmEnv
        { Route := "NYC-LA", Price := ⟨201, -1⟩, IDN := "12345" } emptyWorld =
      (emptyWorld.emit (.span "shipment-service" "CreateShipment"),
        .error (.msg "idn must be exactly 12 digits")) ∧
    (len sampleIDN = 12 ↔ sampleIDN.length = 12) :=
  have h := createShipment_length_check calmEnv
    { Route := "NYC-LA", Price := ⟨201, -1⟩, IDN := "12345" } emptyWorld
  have h2 := createShipment_length_check calmEnv
    { Route := "NYC-LA", Price := ⟨201, -1⟩, IDN := sampleIDN } emptyWorld
  ⟨h.2.1 (by decide), h2.2.2 (by decide)⟩

/-- C8: when the create-shipment flow succeeds, the identifier is twelve decimal digits
and a following `GetCustomer` for it whose lookup does not fail, through the customer
service or through the gRPC server, returns a customer whose id is the customer id of
the returned shipment. -/
theorem shipment_references_customer (env : shipment.service.Env)
    (req : shipment.service.CreateShipmentRequest) (w w2 : World) (s : Shipment)
    (genv : DbEnv)
    (h : shipment.service.Service.CreateShipment env req w = (w2, .ok s))
    (hq : genv.queryErr = none) :
    (req.IDN.length = 12 ∧ ∀ c ∈ req.IDN.data, '0' ≤ c ∧ c ≤ '9') ∧
    (∃ (w3 : World) (c : Customer),
      customer.service.Service.GetCustomer genv req.IDN w2 = (w3, .ok c) ∧
      c.ID = s.CustomerID ∧ c.IDN = req.IDN) ∧
    (∃ (w3 : World) (resp : CustomerResponse),
      customer.grpc.Server.GetCustomer genv req.IDN w2 = (w3, .ok resp) ∧
      resp.Id = s.CustomerID ∧ resp.Idn = req.IDN) := by
  obtain ⟨_, w1, resp0, hrpc, hs, hw⟩ := createShipment_ok_inv h
  obtain ⟨hv, c, hrepo, hresp⟩ := client_upsert_ok hrpc
  have hsel := repo_upsert_select hrepo
  have hidn : c.IDN = req.IDN := (selectByIDN_some hsel).1
  have hcust : w2.customers = w1.customers := by rw [hw]; rfl
  have hcid : c.ID = s.CustomerID := by rw [hs, hresp]
  have hget : ∀ w0 : World, w0.customers = w1.customers →
      customer.service.Service.GetCustomer genv req.IDN w0 =
        (w0.emit (.span "customer-repo" "GetCustomer"), .ok c) := by
    intro w0 hw0
    unfold customer.service.Service.GetCustomer customer.repo.Repository.GetCustomer scanRow
    simp only [emit_customers]
    rw [hv, hq, hw0, hsel]
  refine ⟨(validateIDN_none_iff req.IDN).mp hv, ⟨_, c, hget w2 hcust, hcid, hidn⟩, ?_⟩
  refine ⟨(w2.emit (.span "customer-grpc" "GetCustomer")).emit
      (.span "customer-repo" "GetCustomer"),
    { Id := c.ID, Idn := c.IDN, CreatedAt := c.CreatedAt }, ?_, hcid, hidn⟩
  unfold customer.grpc.Server.GetCustomer
  simp only
  rw [hget _ (by rw [emit_customers, hcust])]

/-- Witness for C8: the sample request in the empty world, then `GetCustomer`. -/
theorem shipment_references_customer_witness :
    (sampleIDN.length = 12 ∧ ∀ c ∈ sampleIDN.data, '0' ≤ c ∧ c ≤ '9') ∧
    (∃ (w3 : World) (c : Customer),
      customer.service.Service.GetCustomer calmDb sampleIDN sampleWorld = (w3, .ok c) ∧
      c.ID = sampleShipment.CustomerID ∧ c.IDN = sampleIDN) ∧
    (∃ (w3 : World) (resp : CustomerResponse),
      customer.grpc.Server.GetCustomer calmDb sampleIDN sampleWorld = (w3, .ok resp) ∧
      resp.Id = sampleShipment.CustomerID ∧ resp.Idn = sampleIDN) :=
  shipment_references_customer calmEnv
    { Route := "NYC-LA", Price := ⟨201, -1⟩, IDN := sampleIDN }
    emptyWorld sampleWorld sampleShipment calmDb (by decide) rfl

/-- C9: the handler `CreateShipment` answers 400 when the body does not decode, and then
the shipment service is not called; it answers 500 whenever the shipment service fails,
a failed identifier validation included; and it answers 201 exactly when the body
decodes and the service call succeeds. -/
theorem http_createShipment_status (decode : shipment.http.Decoder)
    (env : shipment.service.Env) (body : String) (w : World) :
    (∀ e, decode body = .error e →
      shipment.http.Handler.CreateShipment decode env body w =
        (w.emit (.span "shipment-http" "CreateShipment"),
          shipment.http.Error "invalid request body" shipment.http.StatusBadRequest)) ∧
    (∀ req w1 err, decode body = .ok req →
      shipment.service.Service.CreateShipment env
          { Route := req.Route, Price := req.Price, IDN := req.IDN }
          (w.emit (.span "shipment-http" "CreateShipment")) = (w1, .error err) →
      shipment.http.Handler.CreateShipment decode env body w =
        (w1, shipment.http.Error err.Error shipment.http.StatusInternalServerError)) ∧
    (∀ req, decode body = .ok req → len req.IDN ≠ 12 →
      (shipment.http.Handler.CreateShipment decode env body w).2 =
        shipment.http.Error "idn must be exactly 12 digits"
          shipment.http.StatusInternalServerError) ∧
    ((shipment.http.Handler.CreateShipment decode env body w).2.status =
        shipment.http.StatusCreated ↔
      ∃ req w1 s, decode body = .ok req ∧
        shipment.service.Service.CreateShipment env
          { Route := req.Route, Price := req.Price, IDN := req.IDN }
          (w.emit (.span "shipment-http" "CreateShipment")) = (w1, .ok s)) := by
  refine ⟨fun e hdec => handler_createShipment_undecoded hdec, ?_, ?_, ?_⟩
  · intro req w1 err hdec hsvc
    rw [handler_createShipment_decoded hdec, hsvc]
  · intro req hdec hlen
    rw [handler_createShipment_decoded hdec, createShipment_bad_length hlen]
    rfl
  · cases hdec : decode body with
    | error e =>
      rw [handler_createShipment_undecoded hdec]
      constructor
      · intro hx
        have hne : shipment.http.StatusBadRequest ≠ shipment.http.StatusCreated := by decide
        exact absurd hx hne
      · rintro ⟨req, w1, s, hx, _⟩
        cases hx
    | ok req =>
      rw [handler_createShipment_decoded hdec]
      rcases hsvc : shipment.service.Service.CreateShipment env
        { Route := req.Route, Price := req.Price, IDN := req.IDN }
        (w.emit (.span "shipment-http" "CreateShipment")) with ⟨w1, r⟩
      cases r with
      | error err =>
        constructor
        · intro hx
          have hne : shipment.http.StatusInternalServerError ≠ shipment.http.StatusCreated := by
            decide
          exact absurd hx hne
        · rintro ⟨req2, w2, s, hx, hy⟩
          cases hx
          rw [hsvc] at hy
          cases hy
      | ok s =>
        constructor
        · intro _
          exact ⟨req, w1, s, rfl, hsvc⟩
        · intro _
          rfl

/-- Witness for C9: an undecodable body, a body whose identifier is too short, and the
sample body. -/
theorem http_createShipment_status_witness :
    (shipment.http.Handler.CreateShipment sampleDecoder calmEnv "not json" emptyWorld =
      (emptyWorld.emit (.span "shipment-http" "CreateShipment"),
        shipment.http.Error "invalid request body" shipment.http.StatusBadRequest)) ∧
    ((shipment.http.Handler.CreateShipment sampleDecoder calmEnv "short" emptyWorld).2 =
      shipment.http.Error "idn must be exactly 12 digits"
        shipment.http.StatusInternalServerError) ∧
    ((shipment.http.Handler.CreateShipment sampleDecoder calmEnv "sample" emptyWorld).2.status =
      shipment.http.StatusCreated) :=
  ⟨(http_createShipment_status sampleDecoder calmEnv "not json" emptyWorld).1
      (.msg "invalid character") (by decide),
    (http_createShipment_status sampleDecoder calmEnv "short" emptyWorld).2.2.1
      { Route := "NYC-LA", Price := ⟨201, -1⟩, IDN := "12345" } (by decide) (by decide),
    (http_createShipment_status sampleDecoder calmEnv "sample" emptyWorld).2.2.2.mpr
      ⟨sampleRequest, _, _, by decide, rfl⟩⟩

/-- C13: the row the shipment repository `CreateShipment` inserts has the given id if
it is non-empty and otherwise the generated uuid, which is non-empty; the given status
if it is non-empty and otherwise `CREATED`; the given creation time if it is non-zero and
otherwise the current time; and the given route, price and customer id. When the INSERT
does not fail this row is appended to the table, and when it fails no row is. -/
theorem repo_createShipment_row (env : DbEnv) (sh : Shipment) (w : World) :
    ∃ row : Shipment,
      (shipment.repo.Repository.CreateShipment env sh w).2.1 = row ∧
      (row.ID = if sh.ID ≠ "" then sh.ID else env.uuid.String) ∧ row.ID ≠ "" ∧
      (row.Status = if sh.Status ≠ "" then sh.Status else "CREATED") ∧
      (row.CreatedAt = if sh.CreatedAt.IsZero then env.now else sh.CreatedAt) ∧
      row.Route = sh.Route ∧ row.Price = sh.Price ∧ row.CustomerID = sh.CustomerID ∧
      (env.execErr = none →
        (shipment.repo.Repository.CreateShipment env sh w).2.2 = none ∧
        (shipment.repo.Repository.CreateShipment env sh w).1.shipments =
          w.shipments ++ [row]) ∧
      (∀ err, env.execErr = some err →
        (shipment.repo.Repository.CreateShipment env sh w).2.2 =
          some (.wrap "failed to insert shipment: " err) ∧
        (shipment.repo.Repository.CreateShipment env sh w).1.shipments = w.shipments) := by
  rw [repo_createShipment_eq]
  refine ⟨{ ID := if sh.ID = "" then env.uuid.String else sh.ID, Route := sh.Route,
            Price := sh.Price, Status := if sh.Status = "" then "CREATED" else sh.Status,
            CustomerID := sh.CustomerID,
            CreatedAt := if sh.CreatedAt.IsZero then env.now else sh.CreatedAt },
    ?_, ?_, ?_, ?_, rfl, rfl, rfl, rfl, ?_, ?_⟩
  · cases env.execErr <;> rfl
  · by_cases h : sh.ID = ""
    · simp only [h, if_true, ne_eq, not_true_eq_false, if_false]
    · simp only [h, if_false, ne_eq, not_false_eq_true, if_true]
  · by_cases h : sh.ID = ""
    · simp only [h, if_true]
      exact uuid_string_ne_empty _
    · simp only [h, if_false]
      exact h
  · by_cases h : sh.Status = ""
    · simp only [h, if_true, ne_eq, not_true_eq_false, if_false]
    · simp only [h, if_false, ne_eq, not_false_eq_true, if_true]
  · intro hx
    rw [hx]
    exact ⟨rfl, rfl⟩
  · intro err hx
    rw [hx]
    exact ⟨rfl, rfl⟩

/-- Witness for C13: a shipment with id, status and creation time left blank, inserted
without a database failure. -/
theorem repo_createShipment_row_witness :
    (shipment.repo.Repository.CreateShipment calmDb blankShipment emptyWorld).2.2 = none ∧
    ∃ row : Shipment,
      (shipment.repo.Repository.CreateShipment calmDb blankShipment emptyWorld).2.1 = row ∧
      row.ID ≠ "" ∧
      (shipment.repo.Repository.CreateShipment calmDb blankShipment emptyWorld).1.shipments =
        emptyWorld.shipments ++ [row] :=
  match repo_createShipment_row calmDb blankShipment emptyWorld with
  | ⟨row, hrow, _, hid, _, _, _, _, _, hok, _⟩ => ⟨(hok rfl).1, row, hrow, hid, (hok rfl).2⟩

/-- C12, as stated, fails: the identifier `abc` has no row in the empty table and the
customer service `GetCustomer` answers with the validation error, and for `sampleIDN`,
also without a row, a failing lookup is answered with the wrapped database error;
neither is of the kind `NotFoundError`. -/
theorem service_getCustomer_missing_counterexample :
    (customer.repo.selectByIDN emptyWorld.customers "abc" = none ∧
      customer.service.Service.GetCustomer calmDb "abc" emptyWorld =
        (emptyWorld, .error (.msg "idn must be exactly 12 digits")) ∧
      ¬ NotFoundError (.msg "idn must be exactly 12 digits")) ∧
    (customer.repo.selectByIDN emptyWorld.customers sampleIDN = none ∧
      (customer.service.Service.GetCustomer brokenDb sampleIDN emptyWorld).2 =
        .error (.wrap "failed to get customer: "
          (.wrap "failed to query customer: " (.msg "connection refused"))) ∧
      ¬ NotFoundError (.wrap "failed to get customer: "
          (.wrap "failed to query customer: " (.msg "connection refused")))) := by
  decide

/-- C12, amended: for an identifier of exactly twelve decimal digits that has no row in
the customer table, the customer service `GetCustomer`, when the lookup itself does not
fail, returns the lookup-miss error of the repository wrapped with its own context, an
error of the kind `NotFoundError`, and leaves the tables as they were. -/
theorem service_getCustomer_missing (env : DbEnv) (idn : String) (w : World)
    (hvalid : idn.length = 12 ∧ ∀ c ∈ idn.data, '0' ≤ c ∧ c ≤ '9')
    (hrow : customer.repo.selectByIDN w.customers idn = none)
    (hq : env.queryErr = none) :
    customer.service.Service.GetCustomer env idn w =
      (w.emit (.span "customer-repo" "GetCustomer"),
        .error (.wrap "failed to get customer: " (.msg "customer not found"))) ∧
    NotFoundError (.wrap "failed to get customer: " (.msg "customer not found")) := by
  refine ⟨?_, by decide⟩
  unfold customer.service.Service.GetCustomer customer.repo.Repository.GetCustomer scanRow
  simp only [emit_customers]
  rw [validateIDN_valid hvalid, hq, hrow]
  rfl

/-- Witness for C12: `sampleIDN` looked up in the empty table. -/
theorem service_getCustomer_missing_witness :
    customer.service.Service.GetCustomer calmDb sampleIDN emptyWorld =
      (emptyWorld.emit (.span "customer-repo" "GetCustomer"),
        .error (.wrap "failed to get customer: " (.msg "customer not found"))) ∧
    NotFoundError (.wrap "failed to get customer: " (.msg "customer not found")) :=
  service_getCustomer_missing calmDb sampleIDN emptyWorld (by decide) (by decide) rfl

/-- C11, as stated, fails: the request `negativeRequest`, with price -5, is answered 201
and its row is stored with the price -5. -/
theorem persisted_price_counterexample :
    (shipment.http.Handler.CreateShipment negativeDecoder calmEnv "negative" emptyWorld).2.status
        = shipment.http.StatusCreated ∧
    (shipment.http.Handler.CreateShipment negativeDecoder calmEnv "negative"
        emptyWorld).1.shipments = [negativeShipment] ∧
    ¬ negativeShipment.Price.nonneg := by
  decide

/-- C11, amended: the create-shipment flow stores a row exactly when the handler answers
201, and that row carries the price of the request unchanged, so it is non-negative
exactly when the request price is; on every other answer the shipment table is
unchanged. -/
theorem persisted_price_is_request_price (decode : shipment.http.Decoder)
    (env : shipment.service.Env) (body : String) (w : World) :
    ((shipment.http.Handler.CreateShipment decode env body w).2.status =
        shipment.http.StatusCreated →
      ∃ req s, decode body = .ok req ∧
        (shipment.http.Handler.CreateShipment decode env body w).1.shipments =
          w.shipments ++ [s] ∧
        s.Price = req.Price ∧ (s.Price.nonneg ↔ req.Price.nonneg)) ∧
    ((shipment.http.Handler.CreateShipment decode env body w).2.status ≠
        shipment.http.StatusCreated →
      (shipment.http.Handler.CreateShipment decode env body w).1.shipments = w.shipments) := by
  have h400 : shipment.http.StatusBadRequest ≠ shipment.http.StatusCreated := by decide
  have h500 : shipment.http.StatusInternalServerError ≠ shipment.http.StatusCreated := by
    decide
  cases hdec : decode body with
  | error e =>
    rw [handler_createShipment_undecoded hdec]
    exact ⟨fun hx => absurd hx h400, fun _ => rfl⟩
  | ok req =>
    rw [handler_createShipment_decoded hdec]
    have hsh := createShipment_shipments env
      { Route := req.Route, Price := req.Price, IDN := req.IDN }
      (w.emit (.span "shipment-http" "CreateShipment"))
    rcases hsvc : shipment.service.Service.CreateShipment env
      { Route := req.Route, Price := req.Price, IDN := req.IDN }
      (w.emit (.span "shipment-http" "CreateShipment")) with ⟨w1, r⟩
    rw [hsvc] at hsh
    cases r with
    | error err =>
      rcases hsh with ⟨_, _, hw⟩ | ⟨s, hs, _⟩
      · exact ⟨fun hx => absurd hx h500, fun _ => hw⟩
      · cases hs
    | ok s =>
      rcases hsh with ⟨_, he, _⟩ | ⟨s2, hs, hw, hp⟩
      · cases he
      · have hs2 : s = s2 := Except.ok.inj hs
        subst hs2
        refine ⟨fun _ => ⟨req, s, rfl, hw, hp, ?_⟩, fun hx => absurd rfl hx⟩
        have hp2 : s.Price = req.Price := hp
        rw [hp2]

/-- Witness for C11: the sample request is stored with its price 100.5, and an
undecodable body stores nothing. -/
theorem persisted_price_is_request_price_witness :
    (∃ req s, sampleDecoder "sample" = .ok req ∧
      (shipment.http.Handler.CreateShipment sampleDecoder calmEnv "sample"
        emptyWorld).1.shipments = emptyWorld.shipments ++ [s] ∧
      s.Price = req.Price ∧ (s.Price.nonneg ↔ req.Price.nonneg)) ∧
    (shipment.http.Handler.CreateShipment sampleDecoder calmEnv "not json"
        emptyWorld).1.shipments = emptyWorld.shipments :=
  ⟨(persisted_price_is_request_price sampleDecoder calmEnv "sample" emptyWorld).1 (by decide),
    (persisted_price_is_request_price sampleDecoder calmEnv "not json" emptyWorld).2
      (by decide)⟩

end Testovoe
